import Mathlib

/-!
Verification of the Sparkify ETL pipeline (src/etl.py) against its
natural-language specification.

The pipeline is shallowly embedded: a dataframe is a list of records,
each raw JSON record is a structure whose nullable fields are Options,
and each dataframe transformation (filter, dropna, select, dropDuplicates,
withColumn, left join, monotonically increasing id) is a pure list
function.  The Spark timestamp functions (hour, dayofmonth, weekofyear,
month, year, dayofweek) are modelled over the proleptic Gregorian
calendar in UTC, with a timestamp represented losslessly by its count of
epoch milliseconds.
-/

/-- One raw song/artist metadata JSON record, as read at etl.py line 27.
All data fields are nullable. -/
structure RawSong where
  song_id : Option String
  title : Option String
  artist_id : Option String
  artist_name : Option String
  artist_location : Option String
  artist_latitude : Option Rat
  artist_longitude : Option Rat
  year : Option Int
  duration : Option Rat
deriving DecidableEq

/-- One raw event-log JSON record, as read at etl.py line 59.  The ts
field is an epoch-milliseconds long; the remaining fields are nullable. -/
structure RawEvent where
  userId : Option String
  firstName : Option String
  lastName : Option String
  gender : Option String
  level : Option String
  ts : Nat
  page : Option String
  song : Option String
  artist : Option String
  sessionId : Option Nat
  location : Option String
  userAgent : Option String
deriving DecidableEq

/-- A Song dimension row: the projection at etl.py lines 30-33. -/
structure SongRow where
  song_id : Option String
  title : Option String
  artist_id : Option String
  year : Option Int
  duration : Option Rat
deriving DecidableEq

/-- An Artist dimension row: the projection at etl.py lines 40-43.  The
column names are the raw JSON names kept by the select: artist_name
carries the name, artist_location the location, and so on. -/
structure ArtistRow where
  artist_id : Option String
  artist_name : Option String
  artist_location : Option String
  artist_latitude : Option Rat
  artist_longitude : Option Rat
deriving DecidableEq

/-- A User dimension row: the projection at etl.py lines 62-65.  The
column names are the raw event names kept by the select: userId carries
the user id, firstName the first name. -/
structure UserRow where
  userId : Option String
  firstName : Option String
  lastName : Option String
  gender : Option String
  level : Option String
deriving DecidableEq

/-- A Time dimension row (etl.py lines 75-82).  start_time is the
timestamp, held losslessly as epoch milliseconds; the remaining fields
are the calendar derivations. -/
structure TimeRow where
  start_time : Nat
  hour : Nat
  day : Nat
  week : Nat
  month : Nat
  year : Nat
  weekday : Nat
deriving DecidableEq

/-- A Songplay fact row (etl.py lines 92-99).  start_time is the event
timestamp; line 94 reformats it with date_format (whose mandatory format
argument the source omits), which does not change the instant it denotes,
so it is kept as epoch milliseconds. -/
structure SongplayRow where
  songplay_id : Nat
  start_time : Nat
  year : Nat
  month : Nat
  user_id : Option String
  level : Option String
  song_id : Option String
  artist_id : Option String
  session_id : Option Nat
  location : Option String
  user_agent : Option String
deriving DecidableEq

/-- A materialized parquet write: mode, partition columns, target path
and the written rows. -/
structure ParquetWrite (α : Type) where
  mode : String
  partitionBy : List String
  path : String
  rows : List α
deriving DecidableEq

/-- A Python runtime error.  unboundLocal models UnboundLocalError, the
NameError subclass raised on reading a local variable before its first
assignment. -/
inductive PyError where
  | unboundLocal : String → PyError
deriving DecidableEq

/-- etl.py line 31: dropna(how=any, subset=[song_id, artist_id]) on the
raw song data, for the songs table. -/
def songsDropna (df : List RawSong) : List RawSong :=
  df.filter (fun x => x.song_id.isSome && x.artist_id.isSome)

/-- etl.py line 41: dropna(how=any, subset=[song_id, artist_id]) on the
raw song data, for the artists table (textually repeated in the source). -/
def artistsDropna (df : List RawSong) : List RawSong :=
  df.filter (fun x => x.song_id.isSome && x.artist_id.isSome)

/-- etl.py lines 30-32: select [song_id, title, artist_id, year, duration]. -/
def projSong (x : RawSong) : SongRow :=
  ⟨x.song_id, x.title, x.artist_id, x.year, x.duration⟩

/-- etl.py lines 31-33: the songs table. -/
def songs_table (df : List RawSong) : List SongRow :=
  ((songsDropna df).map projSong).dedup

/-- etl.py lines 35-37: write of the songs table. -/
def songs_write (df : List RawSong) : ParquetWrite SongRow :=
  ⟨"overwrite", ["year", "artist_id"], "songs.parquet", songs_table df⟩

/-- etl.py lines 40-42: select [artist_id, artist_name, artist_location,
artist_latitude, artist_longitude]. -/
def projArtist (x : RawSong) : ArtistRow :=
  ⟨x.artist_id, x.artist_name, x.artist_location, x.artist_latitude, x.artist_longitude⟩

/-- etl.py lines 41-43: the artists table. -/
def artists_table (df : List RawSong) : List ArtistRow :=
  ((artistsDropna df).map projArtist).dedup

/-- etl.py lines 45-47: write of the artists table. -/
def artists_write (df : List RawSong) : ParquetWrite ArtistRow :=
  ⟨"overwrite", ["artist_location"], "artists.parquet", artists_table df⟩

/-- etl.py lines 17-47: process_song_data produces the two writes. -/
def process_song_data (df : List RawSong) : ParquetWrite SongRow × ParquetWrite ArtistRow :=
  (songs_write df, artists_write df)

/-- etl.py line 59: the filter expression page == NextSong, applied to
the freshly read event dataframe (its evident referent; the variable
scoping slip of that line is modelled in process_log_data below). -/
def nextSongEvents (events : List RawEvent) : List RawEvent :=
  events.filter (fun e => e.page == some "NextSong")

/-- etl.py line 63: dropna(how=any, subset=[userId, firstName]). -/
def usersDropna (df : List RawEvent) : List RawEvent :=
  df.filter (fun e => e.userId.isSome && e.firstName.isSome)

/-- etl.py lines 62-64: select [userId, firstName, lastName, gender, level]. -/
def projUser (e : RawEvent) : UserRow :=
  ⟨e.userId, e.firstName, e.lastName, e.gender, e.level⟩

/-- etl.py lines 63-65: the users table, from the already filtered frame. -/
def users_rows (df : List RawEvent) : List UserRow :=
  ((usersDropna df).map projUser).dedup

/-- The users table as a function of the raw events: the NextSong filter
of line 59 followed by lines 63-65. -/
def users_table (events : List RawEvent) : List UserRow :=
  users_rows (nextSongEvents events)

/-- etl.py lines 67-69: write of the users table. -/
def users_write (df : List RawEvent) : ParquetWrite UserRow :=
  ⟨"overwrite", ["gender"], "users.parquet", users_rows df⟩

/-- Gregorian leap-year test. -/
def isLeap (y : Nat) : Bool :=
  (y % 4 == 0 && y % 100 != 0) || y % 400 == 0

/-- Number of days in Gregorian year y. -/
def daysInYear (y : Nat) : Nat :=
  if isLeap y then 366 else 365

/-- Month lengths of a year, leap or not. -/
def monthLengths (leap : Bool) : List Nat :=
  [31, if leap then 29 else 28, 31, 30, 31, 30, 31, 31, 30, 31, 30, 31]

/-- Walk forward from year y consuming d days; fuel-structural so that it
evaluates in the kernel.  Returns the year reached and the remaining
zero-based day of year. -/
def findYear : Nat → Nat → Nat → Nat × Nat
  | 0, y, d => (y, d)
  | f + 1, y, d => if d < daysInYear y then (y, d) else findYear f (y + 1) (d - daysInYear y)

/-- Walk along month lengths consuming d days; returns the one-based
month reached and the remaining zero-based day of month. -/
def findMonth : List Nat → Nat → Nat → Nat × Nat
  | [], m, d => (m, d)
  | len :: rest, m, d => if d < len then (m, d) else findMonth rest (m + 1) (d - len)

/-- Whole days since 1970-01-01 of an epoch-milliseconds instant, read as
epoch seconds after the division by 1000 of etl.py line 72. -/
def epochDays (ms : Nat) : Nat :=
  ms / 1000 / 86400

/-- Year and zero-based day-of-year of an instant (UTC). -/
def yearDoy (ms : Nat) : Nat × Nat :=
  findYear (epochDays ms) 1970 (epochDays ms)

/-- UTC (year, month, day-of-month) of an instant. -/
def civilOf (ms : Nat) : Nat × Nat × Nat :=
  ((yearDoy ms).1,
   (findMonth (monthLengths (isLeap (yearDoy ms).1)) 1 (yearDoy ms).2).1,
   (findMonth (monthLengths (isLeap (yearDoy ms).1)) 1 (yearDoy ms).2).2 + 1)

/-- Spark hour(): hour of day, 0-23, UTC. -/
def hourOfMillis (ms : Nat) : Nat :=
  ms / 1000 / 3600 % 24

/-- Spark dayofmonth(): 1-31. -/
def dayofmonthMillis (ms : Nat) : Nat :=
  (civilOf ms).2.2

/-- Spark month(): 1-12. -/
def monthOfMillis (ms : Nat) : Nat :=
  (civilOf ms).2.1

/-- Spark year(). -/
def yearOfMillis (ms : Nat) : Nat :=
  (civilOf ms).1

/-- Spark dayofweek(): 1 = Sunday through 7 = Saturday.  1970-01-01
(epoch day 0) was a Thursday. -/
def dayofweekMillis (ms : Nat) : Nat :=
  (epochDays ms + 4) % 7 + 1

/-- ISO day of week, 1 = Monday through 7 = Sunday. -/
def isoDowMillis (ms : Nat) : Nat :=
  (epochDays ms + 3) % 7 + 1

/-- Helper for the ISO week count of a year. -/
def isoP (y : Nat) : Nat :=
  (y + y / 4 - y / 100 + y / 400) % 7

/-- Number of ISO weeks in year y: 52 or 53. -/
def isoWeeks (y : Nat) : Nat :=
  if isoP y == 4 || isoP (y - 1) == 3 then 53 else 52

/-- Spark weekofyear(): ISO-8601 week number of the instant. -/
def weekofyearMillis (ms : Nat) : Nat :=
  let p := yearDoy ms
  let w := (p.2 + 11 - isoDowMillis ms) / 7
  if w = 0 then isoWeeks (p.1 - 1) else if isoWeeks p.1 < w then 1 else w

/-- etl.py lines 75-82: one time-table row derived from a start_time. -/
def mkTimeRow (ms : Nat) : TimeRow :=
  ⟨ms, hourOfMillis ms, dayofmonthMillis ms, weekofyearMillis ms,
   monthOfMillis ms, yearOfMillis ms, dayofweekMillis ms⟩

/-- etl.py lines 72-82: the time table, from the already filtered frame:
select start_time (ts of line 72), dropDuplicates, derive the fields. -/
def time_rows (df : List RawEvent) : List TimeRow :=
  ((df.map (fun e => e.ts)).dedup).map mkTimeRow

/-- The time table as a function of the raw events. -/
def time_table (events : List RawEvent) : List TimeRow :=
  time_rows (nextSongEvents events)

/-- etl.py lines 84-86: write of the time table. -/
def time_write (df : List RawEvent) : ParquetWrite TimeRow :=
  ⟨"overwrite", ["year", "month"], "time.parquet", time_rows df⟩

/-- The join predicate of etl.py line 92: df.song == songs_df.title.
Case-sensitive string equality; a null on either side never matches. -/
def titleMatch : Option String → Option String → Bool
  | some a, some b => a == b
  | _, _ => false

/-- The Song dimension rows whose title matches the song of event e. -/
def matchingSongs (songs : List SongRow) (e : RawEvent) : List SongRow :=
  songs.filter (fun s => titleMatch e.song s.title)

/-- etl.py line 92, left outer join, per left row: an event with no
matching song yields the single null-extended row, an event with
matching songs yields one row per match. -/
def joinRows (songs : List SongRow) (e : RawEvent) : List (RawEvent × Option SongRow) :=
  if matchingSongs songs e = [] then [(e, none)]
  else (matchingSongs songs e).map (fun s => (e, some s))

/-- etl.py line 92: the whole left outer join. -/
def joinedRows (df : List RawEvent) (songs : List SongRow) : List (RawEvent × Option SongRow) :=
  df.flatMap (joinRows songs)

/-- etl.py lines 93-99: one fact row from a joined row and its
monotonically increasing id; the selectExpr projection with song_id and
artist_id taken from the matched song side (null on a join miss). -/
def mkSongplay (i : Nat) (p : RawEvent × Option SongRow) : SongplayRow :=
  ⟨i, p.1.ts, yearOfMillis p.1.ts, monthOfMillis p.1.ts, p.1.userId, p.1.level,
   p.2.bind (fun s => s.song_id), p.2.bind (fun s => s.artist_id),
   p.1.sessionId, p.1.location, p.1.userAgent⟩

/-- etl.py lines 92-99: the songplays table from the already filtered
frame and the re-read songs parquet.  monotonically_increasing_id is
modelled by row position, which satisfies its contract: monotonically
increasing and unique within the run. -/
def songplays_rows (df : List RawEvent) (songs : List SongRow) : List SongplayRow :=
  (joinedRows df songs).enum.map (fun q => mkSongplay q.1 q.2)

/-- The songplays table as a function of the raw events and the songs
parquet rows. -/
def songplays_table (events : List RawEvent) (songs : List SongRow) : List SongplayRow :=
  songplays_rows (nextSongEvents events) songs

/-- etl.py lines 102-104: write of the songplays table. -/
def songplays_write (df : List RawEvent) (songs : List SongRow) : ParquetWrite SongplayRow :=
  ⟨"overwrite", ["year", "month"], "songplays.parquet", songplays_rows df songs⟩

/-- Reading a Python local variable that has no value yet raises
UnboundLocalError, a subclass of NameError. -/
def pyLocalUnbound (α : Type) (x : String) : Except PyError α :=
  Except.error (PyError.unboundLocal x)

/-- etl.py lines 49-104: process_log_data.  Line 59 reads
spark.read.json(log_data).filter(df.page == NextSong) into df: the
right-hand side evaluates the local variable df before its own first
assignment has completed, so the function raises before anything is
filtered or written.  The continuation after the bind is the rest of the
function body, which is never reached. -/
def process_log_data (events : List RawEvent) (songs_df : List SongRow) :
    Except PyError (ParquetWrite UserRow × ParquetWrite TimeRow × ParquetWrite SongplayRow) := do
  let df ← pyLocalUnbound (List RawEvent) "df"
  pure (users_write df, time_write df, songplays_write df songs_df)

theorem joinRows_length_pos (songs : List SongRow) (e : RawEvent) :
    1 ≤ (joinRows songs e).length := by
  unfold joinRows
  split
  · simp
  · next h =>
    rw [List.length_map]
    have := List.length_pos.mpr h
    omega

theorem joinRows_fst (songs : List SongRow) (e : RawEvent) :
    ∀ p ∈ joinRows songs e, p.1 = e := by
  intro p hp
  unfold joinRows at hp
  split at hp
  · simp at hp
    rw [hp]
  · rcases List.mem_map.mp hp with ⟨s, _, rfl⟩
    rfl

theorem joinRows_no_match {songs : List SongRow} {e : RawEvent}
    (h : matchingSongs songs e = []) : joinRows songs e = [(e, none)] := by
  unfold joinRows
  simp [h]

theorem joinRows_length_one {songs : List SongRow} {e : RawEvent}
    (h : (matchingSongs songs e).length ≤ 1) : (joinRows songs e).length = 1 := by
  unfold joinRows
  split
  · rfl
  · next hne =>
    rw [List.length_map]
    have := List.length_pos.mpr hne
    omega

theorem joinedRows_length_ge (df : List RawEvent) (songs : List SongRow) :
    df.length ≤ (joinedRows df songs).length := by
  unfold joinedRows
  induction df with
  | nil => simp
  | cons a t ih =>
    rw [List.flatMap_cons, List.length_append, List.length_cons]
    have := joinRows_length_pos songs a
    omega

theorem joinedRows_length_eq {df : List RawEvent} {songs : List SongRow}
    (h : ∀ e ∈ df, (matchingSongs songs e).length ≤ 1) :
    (joinedRows df songs).length = df.length := by
  unfold joinedRows
  induction df with
  | nil => simp
  | cons a t ih =>
    rw [List.flatMap_cons, List.length_append, List.length_cons]
    rw [joinRows_length_one (h a (List.mem_cons_self a t))]
    have := ih (fun e he => h e (List.mem_cons_of_mem a he))
    unfold joinedRows at this
    omega

theorem joinedRows_count_none {songs : List SongRow} {e : RawEvent}
    (h : matchingSongs songs e = []) (df : List RawEvent) :
    (joinedRows df songs).count (e, (none : Option SongRow)) = df.count e := by
  unfold joinedRows
  induction df with
  | nil => simp
  | cons a t ih =>
    rw [List.flatMap_cons, List.count_append, List.count_cons]
    unfold joinedRows at ih
    rw [ih]
    by_cases hae : a = e
    · subst hae
      rw [joinRows_no_match h]
      simp [List.count_cons]
      omega
    · have hnotin : (e, (none : Option SongRow)) ∉ joinRows songs a := by
        intro hmem
        have := joinRows_fst songs a _ hmem
        exact hae this.symm
      rw [List.count_eq_zero.mpr hnotin]
      simp [hae]

theorem mem_enumFrom_of_mem {α : Type} {x : α} :
    ∀ (l : List α) (n : Nat), x ∈ l → ∃ i, (i, x) ∈ l.enumFrom n := by
  intro l
  induction l with
  | nil => simp
  | cons a t ih =>
    intro n hx
    rw [List.enumFrom_cons]
    rcases List.mem_cons.mp hx with rfl | hx
    · exact ⟨n, List.mem_cons_self _ _⟩
    · obtain ⟨i, hi⟩ := ih (n + 1) hx
      exact ⟨i, List.mem_cons_of_mem _ hi⟩

theorem songplays_row_of_mem {df : List RawEvent} {songs : List SongRow}
    {p : RawEvent × Option SongRow} (hp : p ∈ joinedRows df songs) :
    ∃ r ∈ songplays_rows df songs,
      r.start_time = p.1.ts ∧ r.user_id = p.1.userId ∧ r.level = p.1.level ∧
      r.song_id = p.2.bind (fun s => s.song_id) ∧
      r.artist_id = p.2.bind (fun s => s.artist_id) ∧
      r.session_id = p.1.sessionId ∧ r.location = p.1.location ∧
      r.user_agent = p.1.userAgent := by
  obtain ⟨i, hi⟩ := mem_enumFrom_of_mem _ 0 hp
  refine ⟨mkSongplay i p, ?_, rfl, rfl, rfl, rfl, rfl, rfl, rfl, rfl⟩
  unfold songplays_rows
  exact List.mem_map.mpr ⟨(i, p), hi, rfl⟩

theorem exists_mem_joinRows (songs : List SongRow) (e : RawEvent) :
    ∃ q, q ∈ joinRows songs e := by
  have hpos := joinRows_length_pos songs e
  cases hj : joinRows songs e with
  | nil => rw [hj] at hpos; simp at hpos
  | cons a t => exact ⟨a, hj ▸ List.mem_cons_self a t⟩

theorem mem_joinedRows_of_mem {df : List RawEvent} {songs : List SongRow}
    {e : RawEvent} {q : RawEvent × Option SongRow}
    (he : e ∈ df) (hq : q ∈ joinRows songs e) : q ∈ joinedRows df songs :=
  List.mem_flatMap.mpr ⟨e, he, hq⟩

theorem songplays_map_songplay_id (df : List RawEvent) (songs : List SongRow) :
    (songplays_rows df songs).map (fun r => r.songplay_id) =
      List.range (joinedRows df songs).length := by
  unfold songplays_rows
  rw [List.map_map]
  have hfun : ((fun r : SongplayRow => r.songplay_id) ∘
      fun q : Nat × (RawEvent × Option SongRow) => mkSongplay q.1 q.2) = Prod.fst := by
    funext q
    rfl
  rw [hfun, List.enum_map_fst]

theorem songplays_rows_length (df : List RawEvent) (songs : List SongRow) :
    (songplays_rows df songs).length = (joinedRows df songs).length := by
  unfold songplays_rows
  rw [List.length_map, List.enum_length]

theorem daysInYear_ge (y : Nat) : 365 ≤ daysInYear y := by
  unfold daysInYear
  split <;> omega

theorem findYear_snd_lt :
    ∀ (f y d : Nat), d ≤ f →
      (findYear f y d).2 < daysInYear (findYear f y d).1 := by
  intro f
  induction f with
  | zero =>
    intro y d h
    have h365 := daysInYear_ge y
    simp only [findYear]
    omega
  | succ f ih =>
    intro y d h
    rw [findYear]
    split
    · next hlt => exact hlt
    · next hge =>
      have h365 := daysInYear_ge y
      exact ih (y + 1) (d - daysInYear y) (by omega)

theorem findYear_fst_ge :
    ∀ (f y d : Nat), y ≤ (findYear f y d).1 := by
  intro f
  induction f with
  | zero => intro y d; simp [findYear]
  | succ f ih =>
    intro y d
    rw [findYear]
    split
    · simp
    · have := ih (y + 1) (d - daysInYear y)
      omega

theorem monthLengths_sum (y : Nat) : (monthLengths (isLeap y)).sum = daysInYear y := by
  unfold daysInYear monthLengths
  cases isLeap y <;> simp

theorem monthLengths_le31 (b : Bool) : ∀ l ∈ monthLengths b, l ≤ 31 := by
  cases b <;> decide

theorem monthLengths_length (b : Bool) : (monthLengths b).length = 12 := by
  cases b <;> rfl

theorem findMonth_bounds :
    ∀ (ls : List Nat) (m d : Nat), d < ls.sum → (∀ l ∈ ls, l ≤ 31) →
      m ≤ (findMonth ls m d).1 ∧ (findMonth ls m d).1 < m + ls.length ∧
        (findMonth ls m d).2 < 31 := by
  intro ls
  induction ls with
  | nil =>
    intro m d h _
    simp at h
  | cons len rest ih =>
    intro m d hsum hle
    rw [findMonth]
    split
    · next hlt =>
      have hlen := hle len (List.mem_cons_self len rest)
      refine ⟨Nat.le_refl m, ?_, by omega⟩
      rw [List.length_cons]
      omega
    · next hge =>
      rw [List.sum_cons] at hsum
      have hrest := ih (m + 1) (d - len)
        (by omega)
        (fun l hl => hle l (List.mem_cons_of_mem len hl))
      rw [List.length_cons]
      omega

theorem civil_bounds (ms : Nat) :
    1 ≤ dayofmonthMillis ms ∧ dayofmonthMillis ms ≤ 31 ∧
      1 ≤ monthOfMillis ms ∧ monthOfMillis ms ≤ 12 := by
  have hy : (yearDoy ms).2 < daysInYear (yearDoy ms).1 := by
    unfold yearDoy
    exact findYear_snd_lt (epochDays ms) 1970 (epochDays ms) (Nat.le_refl _)
  have hsum : (yearDoy ms).2 < (monthLengths (isLeap (yearDoy ms).1)).sum := by
    rw [monthLengths_sum]
    exact hy
  have hm := findMonth_bounds (monthLengths (isLeap (yearDoy ms).1)) 1 (yearDoy ms).2
    hsum (monthLengths_le31 _)
  rw [monthLengths_length] at hm
  unfold dayofmonthMillis monthOfMillis civilOf
  dsimp only
  omega

theorem hourOfMillis_lt (ms : Nat) : hourOfMillis ms < 24 := by
  unfold hourOfMillis
  omega

theorem dayofweekMillis_bounds (ms : Nat) :
    1 ≤ dayofweekMillis ms ∧ dayofweekMillis ms ≤ 7 := by
  unfold dayofweekMillis
  omega

/-- Claim C1, counterexample: the count part of the claim is false as
stated.  One NextSong event whose song title matches two Song dimension
rows (two songs sharing one title) is duplicated by the left join, so
the Songplay table has 2 rows for 1 NextSong event. -/
theorem songplays_count_counterexample :
    (songplays_table
        [⟨some "91", some "F", none, none, some "free", 1541440000000,
          some "NextSong", some "T", some "X", some 1, none, none⟩]
        [⟨some "S1", some "T", some "A1", none, none⟩,
         ⟨some "S2", some "T", some "A2", none, none⟩]).length ≠
      (nextSongEvents
        [⟨some "91", some "F", none, none, some "free", 1541440000000,
          some "NextSong", some "T", some "X", some 1, none, none⟩]).length := by
  decide

/-- Claim C1, amended: the Songplay build never drops an event: it has
at least one row per NextSong event, and exactly as many rows as
NextSong events whenever each event title matches at most one Song row;
a NextSong event matching no Song row still yields exactly one joined
row per occurrence, and its Songplay row is present with song_id and
artist_id null. -/
theorem songplays_left_join_nonlossy (events : List RawEvent) (songs : List SongRow) :
    (nextSongEvents events).length ≤ (songplays_table events songs).length ∧
    ((∀ e ∈ nextSongEvents events, (matchingSongs songs e).length ≤ 1) →
      (songplays_table events songs).length = (nextSongEvents events).length) ∧
    (∀ e : RawEvent, matchingSongs songs e = [] →
      (joinedRows (nextSongEvents events) songs).count (e, (none : Option SongRow)) =
        (nextSongEvents events).count e) ∧
    (∀ e ∈ nextSongEvents events, matchingSongs songs e = [] →
      ∃ r ∈ songplays_table events songs,
        r.song_id = none ∧ r.artist_id = none ∧ r.user_id = e.userId ∧
        r.level = e.level ∧ r.session_id = e.sessionId ∧ r.start_time = e.ts ∧
        r.location = e.location ∧ r.user_agent = e.userAgent) := by
  refine ⟨?_, ?_, ?_, ?_⟩
  · unfold songplays_table
    rw [songplays_rows_length]
    exact joinedRows_length_ge _ _
  · intro h
    unfold songplays_table
    rw [songplays_rows_length]
    exact joinedRows_length_eq h
  · intro e h
    exact joinedRows_count_none h _
  · intro e he hm
    have hq : (e, (none : Option SongRow)) ∈ joinRows songs e := by
      rw [joinRows_no_match hm]
      exact List.mem_cons_self _ _
    have hj := mem_joinedRows_of_mem he hq
    obtain ⟨r, hr, h1, h2, h3, h4, h5, h6, h7, h8⟩ := songplays_row_of_mem hj
    exact ⟨r, hr, h4, h5, h2, h3, h6, h1, h7, h8⟩

/-- Claim C1, witness: a NextSong event whose title matches no Song row
(empty Song dimension) keeps its Songplay row, with null song_id and
artist_id, and the counts agree. -/
theorem songplays_left_join_nonlossy_witness :
    (songplays_table
        [⟨some "91", some "F", none, none, some "free", 1541440000000,
          some "NextSong", some "Unknown Title", some "X", some 1, none, none⟩]
        []).length =
      (nextSongEvents
        [⟨some "91", some "F", none, none, some "free", 1541440000000,
          some "NextSong", some "Unknown Title", some "X", some 1, none, none⟩]).length ∧
    ∃ r ∈ songplays_table
        [⟨some "91", some "F", none, none, some "free", 1541440000000,
          some "NextSong", some "Unknown Title", some "X", some 1, none, none⟩]
        [],
      r.song_id = none ∧ r.artist_id = none ∧ r.user_id = some "91" ∧
      r.level = some "free" ∧ r.session_id = some 1 ∧
      r.start_time = 1541440000000 ∧ r.location = none ∧ r.user_agent = none := by
  constructor
  · exact (songplays_left_join_nonlossy _ _).2.1 (by decide)
  · have h := (songplays_left_join_nonlossy
        [⟨some "91", some "F", none, none, some "free", 1541440000000,
          some "NextSong", some "Unknown Title", some "X", some 1, none, none⟩]
        []).2.2.2
        ⟨some "91", some "F", none, none, some "free", 1541440000000,
          some "NextSong", some "Unknown Title", some "X", some 1, none, none⟩
        (by decide) (by decide)
    simpa using h

/-- Claim C2: the songplay_id values of the Songplay table of one run
are strictly increasing in row order, hence pairwise distinct, for every
input. -/
theorem songplay_id_strictly_increasing (events : List RawEvent) (songs : List SongRow) :
    ((songplays_table events songs).map (fun r => r.songplay_id)).Pairwise (· < ·) ∧
    ((songplays_table events songs).map (fun r => r.songplay_id)).Nodup := by
  unfold songplays_table
  rw [songplays_map_songplay_id]
  exact ⟨List.pairwise_lt_range _, List.nodup_range _⟩

/-- Claim C3: process_log_data raises an unbound-local NameError for
every input, because line 59 reads the local variable df on the
right-hand side of its own first assignment; consequently it never
returns its writes, so the User, Time, and Songplay tables are never
written. -/
theorem process_log_data_unbound_df (events : List RawEvent) (songs_df : List SongRow) :
    process_log_data events songs_df = Except.error (PyError.unboundLocal "df") :=
  rfl

theorem mem_songsDropna {df : List RawSong} {x : RawSong} :
    x ∈ songsDropna df ↔ x ∈ df ∧ x.song_id.isSome ∧ x.artist_id.isSome := by
  unfold songsDropna
  rw [List.mem_filter]
  simp [Bool.and_eq_true]

theorem mem_artistsDropna {df : List RawSong} {x : RawSong} :
    x ∈ artistsDropna df ↔ x ∈ df ∧ x.song_id.isSome ∧ x.artist_id.isSome := by
  unfold artistsDropna
  rw [List.mem_filter]
  simp [Bool.and_eq_true]

theorem mem_usersDropna {df : List RawEvent} {e : RawEvent} :
    e ∈ usersDropna df ↔ e ∈ df ∧ e.userId.isSome ∧ e.firstName.isSome := by
  unfold usersDropna
  rw [List.mem_filter]
  simp [Bool.and_eq_true]

theorem mem_nextSongEvents {events : List RawEvent} {e : RawEvent} :
    e ∈ nextSongEvents events ↔ e ∈ events ∧ e.page = some "NextSong" := by
  unfold nextSongEvents
  rw [List.mem_filter]
  simp

theorem mem_songs_table {df : List RawSong} {r : SongRow} :
    r ∈ songs_table df ↔ ∃ x ∈ songsDropna df, projSong x = r := by
  unfold songs_table
  rw [List.mem_dedup, List.mem_map]

theorem mem_artists_table {df : List RawSong} {a : ArtistRow} :
    a ∈ artists_table df ↔ ∃ x ∈ artistsDropna df, projArtist x = a := by
  unfold artists_table
  rw [List.mem_dedup, List.mem_map]

theorem mem_users_rows {df : List RawEvent} {u : UserRow} :
    u ∈ users_rows df ↔ ∃ e ∈ usersDropna df, projUser e = u := by
  unfold users_rows
  rw [List.mem_dedup, List.mem_map]

/-- Claim C4: every Song dimension row has non-null song_id and
artist_id, every Artist dimension row has non-null artist_id, and a raw
record with a null song_id or a null artist_id is dropped by the dropna
stage of both builders, before deduplication. -/
theorem dimension_keys_nonnull (df : List RawSong) :
    (∀ r ∈ songs_table df, r.song_id ≠ none ∧ r.artist_id ≠ none) ∧
    (∀ a ∈ artists_table df, a.artist_id ≠ none) ∧
    (∀ x ∈ df, (x.song_id = none ∨ x.artist_id = none) →
      x ∉ songsDropna df ∧ x ∉ artistsDropna df) := by
  refine ⟨?_, ?_, ?_⟩
  · intro r hr
    obtain ⟨x, hx, rfl⟩ := mem_songs_table.mp hr
    obtain ⟨-, h1, h2⟩ := mem_songsDropna.mp hx
    exact ⟨Option.isSome_iff_ne_none.mp h1, Option.isSome_iff_ne_none.mp h2⟩
  · intro a ha
    obtain ⟨x, hx, rfl⟩ := mem_artists_table.mp ha
    obtain ⟨-, -, h2⟩ := mem_artistsDropna.mp hx
    exact Option.isSome_iff_ne_none.mp h2
  · intro x _ h
    constructor
    · intro hmem
      obtain ⟨-, h1, h2⟩ := mem_songsDropna.mp hmem
      rcases h with h | h
      · rw [h] at h1
        simp at h1
      · rw [h] at h2
        simp at h2
    · intro hmem
      obtain ⟨-, h1, h2⟩ := mem_artistsDropna.mp hmem
      rcases h with h | h
      · rw [h] at h1
        simp at h1
      · rw [h] at h2
        simp at h2

/-- Claim C4, witness: a raw record whose song_id is null is dropped by
both builders. -/
theorem dimension_keys_nonnull_witness :
    (⟨none, some "T", some "A1", some "N", none, none, none, none, none⟩ : RawSong) ∉
      songsDropna [⟨none, some "T", some "A1", some "N", none, none, none, none, none⟩] ∧
    (⟨none, some "T", some "A1", some "N", none, none, none, none, none⟩ : RawSong) ∉
      artistsDropna [⟨none, some "T", some "A1", some "N", none, none, none, none, none⟩] :=
  (dimension_keys_nonnull
      [⟨none, some "T", some "A1", some "N", none, none, none, none, none⟩]).2.2
    ⟨none, some "T", some "A1", some "N", none, none, none, none, none⟩
    (List.mem_cons_self _ _) (Or.inl rfl)

/-- Claim C5: the User dimension is built only from NextSong events,
events with a null userId or a null firstName are excluded, and every
User row has non-null userId and firstName. -/
theorem users_table_nonnull (events : List RawEvent) :
    (∀ u ∈ users_table events, u.userId ≠ none ∧ u.firstName ≠ none) ∧
    (∀ u ∈ users_table events, ∃ e ∈ events, e.page = some "NextSong" ∧ projUser e = u) ∧
    (∀ e ∈ events, (e.userId = none ∨ e.firstName = none) →
      projUser e ∉ users_table events) := by
  have key : ∀ u ∈ users_table events, u.userId ≠ none ∧ u.firstName ≠ none := by
    intro u hu
    obtain ⟨e, he, rfl⟩ := mem_users_rows.mp hu
    obtain ⟨-, h1, h2⟩ := mem_usersDropna.mp he
    exact ⟨Option.isSome_iff_ne_none.mp h1, Option.isSome_iff_ne_none.mp h2⟩
  refine ⟨key, ?_, ?_⟩
  · intro u hu
    obtain ⟨e, he, rfl⟩ := mem_users_rows.mp hu
    obtain ⟨hn, -, -⟩ := mem_usersDropna.mp he
    obtain ⟨he2, hpage⟩ := mem_nextSongEvents.mp hn
    exact ⟨e, he2, hpage, rfl⟩
  · intro e _ h hmem
    have := key (projUser e) hmem
    rcases h with h | h
    · exact this.1 h
    · exact this.2 h

/-- Claim C5, witness: a NextSong event with a null userId is excluded
from the User dimension. -/
theorem users_table_nonnull_witness :
    projUser ⟨none, some "F", none, none, some "free", 1541440000000,
        some "NextSong", some "T", none, some 1, none, none⟩ ∉
      users_table [⟨none, some "F", none, none, some "free", 1541440000000,
        some "NextSong", some "T", none, some 1, none, none⟩] :=
  (users_table_nonnull
      [⟨none, some "F", none, none, some "free", 1541440000000,
        some "NextSong", some "T", none, some 1, none, none⟩]).2.2
    ⟨none, some "F", none, none, some "free", 1541440000000,
        some "NextSong", some "T", none, some 1, none, none⟩
    (List.mem_cons_self _ _) (Or.inl rfl)

/-- Claim C6: the Time dimension has exactly one row per distinct
start_time of the NextSong events (start_time held as the ts epoch
milliseconds, read as epoch seconds through the division by 1000 in the
field derivations), and each row derives hour 0-23, day-of-month 1-31,
week-of-year, month 1-12, year, and a weekday numbered 1 = Sunday
through 7 = Saturday; the anchors check the convention on the known
Sunday 1970-01-04 and Saturday 1970-01-03. -/
theorem time_table_fields (events : List RawEvent) :
    ((time_table events).map (fun r => r.start_time) =
      ((nextSongEvents events).map (fun e => e.ts)).dedup) ∧
    ((time_table events).map (fun r => r.start_time)).Nodup ∧
    (∀ r ∈ time_table events,
      r.hour = r.start_time / 1000 / 3600 % 24 ∧ r.hour ≤ 23 ∧
      r.day = dayofmonthMillis r.start_time ∧ 1 ≤ r.day ∧ r.day ≤ 31 ∧
      r.week = weekofyearMillis r.start_time ∧
      r.month = monthOfMillis r.start_time ∧ 1 ≤ r.month ∧ r.month ≤ 12 ∧
      r.year = yearOfMillis r.start_time ∧
      r.weekday = dayofweekMillis r.start_time ∧ 1 ≤ r.weekday ∧ r.weekday ≤ 7) ∧
    dayofweekMillis 259200000 = 1 ∧ dayofweekMillis 172800000 = 7 := by
  have hmap : (time_table events).map (fun r => r.start_time) =
      ((nextSongEvents events).map (fun e => e.ts)).dedup := by
    unfold time_table time_rows
    rw [List.map_map]
    have hcomp : ((fun r : TimeRow => r.start_time) ∘ mkTimeRow) = id := by
      funext ms
      rfl
    rw [hcomp, List.map_id]
  refine ⟨hmap, ?_, ?_, by decide, by decide⟩
  · rw [hmap]
    exact List.nodup_dedup _
  · intro r hr
    unfold time_table time_rows at hr
    obtain ⟨ms, hms, rfl⟩ := List.mem_map.mp hr
    have hc := civil_bounds ms
    have hw := dayofweekMillis_bounds ms
    have hh := hourOfMillis_lt ms
    dsimp only [mkTimeRow]
    exact ⟨rfl, by omega, rfl, hc.1, hc.2.1, rfl, rfl, hc.2.2.1, hc.2.2.2, rfl,
      rfl, hw.1, hw.2⟩

/-- Claim C6, witness: the single row for the timestamp 1541440000000 ms
(2018-11-05 UTC) has its fields within the stated ranges and the stated
weekday convention. -/
theorem time_table_fields_witness :
    1 ≤ (mkTimeRow 1541440000000).day ∧ (mkTimeRow 1541440000000).day ≤ 31 ∧
    1 ≤ (mkTimeRow 1541440000000).month ∧ (mkTimeRow 1541440000000).month ≤ 12 ∧
    (mkTimeRow 1541440000000).hour ≤ 23 ∧
    1 ≤ (mkTimeRow 1541440000000).weekday ∧ (mkTimeRow 1541440000000).weekday ≤ 7 := by
  have h := (time_table_fields
      [⟨none, none, none, none, none, 1541440000000, some "NextSong",
        none, none, none, none, none⟩]).2.2.1
      (mkTimeRow 1541440000000) (by decide)
  obtain ⟨-, h1, -, h2, h3, -, -, h4, h5, -, -, h6, h7⟩ := h
  exact ⟨h2, h3, h4, h5, h1, h6, h7⟩

theorem time_rows_start_times (df : List RawEvent) :
    (time_rows df).map (fun r => r.start_time) = (df.map (fun e => e.ts)).dedup := by
  unfold time_rows
  rw [List.map_map]
  have hcomp : ((fun r : TimeRow => r.start_time) ∘ mkTimeRow) = id := by
    funext ms
    rfl
  rw [hcomp, List.map_id]

/-- Claim C7: the event-to-song join matches on case-sensitive string
equality of the event song with the Song row title, with no artist or
duration condition: any Song row whose title equals the event song
produces a Songplay row for that event carrying that row song_id and
artist_id.  The two titleMatch conjuncts pin case-sensitive equality. -/
theorem songplays_join_on_title (events : List RawEvent) (songs : List SongRow)
    (e : RawEvent) (s : SongRow) (t : String)
    (he : e ∈ nextSongEvents events) (hs : s ∈ songs)
    (hesong : e.song = some t) (hstitle : s.title = some t) :
    (∃ r ∈ songplays_table events songs,
      r.song_id = s.song_id ∧ r.artist_id = s.artist_id ∧ r.user_id = e.userId ∧
      r.session_id = e.sessionId ∧ r.start_time = e.ts ∧ r.level = e.level ∧
      r.location = e.location ∧ r.user_agent = e.userAgent) ∧
    titleMatch (some "a") (some "A") = false ∧
    titleMatch (some "a") (some "a") = true := by
  refine ⟨?_, by decide, by decide⟩
  have hmatch : titleMatch e.song s.title = true := by
    rw [hesong, hstitle]
    simp [titleMatch]
  have hsm : s ∈ matchingSongs songs e := by
    unfold matchingSongs
    exact List.mem_filter.mpr ⟨hs, hmatch⟩
  have hq : (e, some s) ∈ joinRows songs e := by
    unfold joinRows
    have hne : matchingSongs songs e ≠ [] := by
      intro h0
      rw [h0] at hsm
      simp at hsm
    rw [if_neg hne]
    exact List.mem_map.mpr ⟨s, hsm, rfl⟩
  have hj := mem_joinedRows_of_mem he hq
  obtain ⟨r, hr, h1, h2, h3, h4, h5, h6, h7, h8⟩ := songplays_row_of_mem hj
  exact ⟨r, hr, h4, h5, h2, h6, h1, h3, h7, h8⟩

/-- Claim C7, witness, Scenario A: the event with song Title A joined
against the Song row with title Title A carries song_id SOX1 and
artist_id ARX1. -/
theorem songplays_join_on_title_witness :
    ∃ r ∈ songplays_table
        [⟨some "91", some "F", none, none, some "paid", 1541440000000,
          some "NextSong", some "Title A", some "Artist X", some 5, none, none⟩]
        [⟨some "SOX1", some "Title A", some "ARX1", some 2000, none⟩],
      r.song_id = some "SOX1" ∧ r.artist_id = some "ARX1" ∧ r.user_id = some "91" ∧
      r.session_id = some 5 ∧ r.start_time = 1541440000000 ∧ r.level = some "paid" ∧
      r.location = none ∧ r.user_agent = none :=
  (songplays_join_on_title
    [⟨some "91", some "F", none, none, some "paid", 1541440000000,
      some "NextSong", some "Title A", some "Artist X", some 5, none, none⟩]
    [⟨some "SOX1", some "Title A", some "ARX1", some 2000, none⟩]
    ⟨some "91", some "F", none, none, some "paid", 1541440000000,
      some "NextSong", some "Title A", some "Artist X", some 5, none, none⟩
    ⟨some "SOX1", some "Title A", some "ARX1", some 2000, none⟩
    "Title A" (by decide) (List.mem_cons_self _ _) rfl rfl).1

/-- Claim C8: the Artist builder applies the very same dropna condition
as the Song builder (including the coupling on song_id), projects to the
five artist columns, collapses identical raw rows to a single output row
by full-row deduplication, and its write partitions by the location
column. -/
theorem artists_table_build (df : List RawSong) (x : RawSong) :
    artistsDropna df = songsDropna df ∧
    (∀ y ∈ df, y.song_id = none → y ∉ artistsDropna df) ∧
    (∀ a ∈ artists_table df, ∃ z ∈ artistsDropna df, a = projArtist z) ∧
    (x ∈ artistsDropna df → (artists_table df).count (projArtist x) = 1) ∧
    (artists_write df).partitionBy = ["artist_location"] ∧
    (artists_write df).mode = "overwrite" := by
  refine ⟨rfl, ?_, ?_, ?_, rfl, rfl⟩
  · intro y _ hy hmem
    obtain ⟨-, h1, -⟩ := mem_artistsDropna.mp hmem
    rw [hy] at h1
    simp at h1
  · intro a ha
    obtain ⟨z, hz, h⟩ := mem_artists_table.mp ha
    exact ⟨z, hz, h.symm⟩
  · intro hx
    unfold artists_table
    rw [List.count_dedup]
    rw [if_pos (List.mem_map.mpr ⟨x, hx, rfl⟩)]

/-- Claim C8, witness, Scenario C: two identical raw artist rows leave
exactly one Artist dimension row. -/
theorem artists_table_build_witness :
    (artists_table
        [⟨some "S1", some "T", some "A1", some "X", some "Y", none, none, none, none⟩,
         ⟨some "S1", some "T", some "A1", some "X", some "Y", none, none, none, none⟩]).count
      (projArtist ⟨some "S1", some "T", some "A1", some "X", some "Y", none, none, none, none⟩) = 1 :=
  (artists_table_build
      [⟨some "S1", some "T", some "A1", some "X", some "Y", none, none, none, none⟩,
       ⟨some "S1", some "T", some "A1", some "X", some "Y", none, none, none, none⟩]
      ⟨some "S1", some "T", some "A1", some "X", some "Y", none, none, none, none⟩).2.2.2.1
    (by decide)

/-- Claim C9: deduplication is on full projected-row equality, not
primary key alone: in the Song, Artist and User builders, two surviving
raw records sharing a primary key but differing in another projected
field both appear in the output, which is duplicate-free as a set of
rows. -/
theorem dedup_full_row_not_pk (df : List RawSong) (events : List RawEvent)
    (x1 x2 : RawSong) (e1 e2 : RawEvent) :
    (x1 ∈ songsDropna df → x2 ∈ songsDropna df → x1.song_id = x2.song_id →
      projSong x1 ≠ projSong x2 →
      projSong x1 ∈ songs_table df ∧ projSong x2 ∈ songs_table df ∧
        (songs_table df).Nodup) ∧
    (x1 ∈ artistsDropna df → x2 ∈ artistsDropna df → x1.artist_id = x2.artist_id →
      projArtist x1 ≠ projArtist x2 →
      projArtist x1 ∈ artists_table df ∧ projArtist x2 ∈ artists_table df ∧
        (artists_table df).Nodup) ∧
    (e1 ∈ usersDropna (nextSongEvents events) → e2 ∈ usersDropna (nextSongEvents events) →
      e1.userId = e2.userId → projUser e1 ≠ projUser e2 →
      projUser e1 ∈ users_table events ∧ projUser e2 ∈ users_table events ∧
        (users_table events).Nodup) := by
  refine ⟨?_, ?_, ?_⟩
  · intro h1 h2 _ _
    exact ⟨mem_songs_table.mpr ⟨x1, h1, rfl⟩, mem_songs_table.mpr ⟨x2, h2, rfl⟩,
      List.nodup_dedup _⟩
  · intro h1 h2 _ _
    exact ⟨mem_artists_table.mpr ⟨x1, h1, rfl⟩, mem_artists_table.mpr ⟨x2, h2, rfl⟩,
      List.nodup_dedup _⟩
  · intro h1 h2 _ _
    exact ⟨mem_users_rows.mpr ⟨e1, h1, rfl⟩, mem_users_rows.mpr ⟨e2, h2, rfl⟩,
      List.nodup_dedup _⟩

/-- Claim C9, witness: one user appearing with level free and level paid
yields two distinct User dimension rows sharing userId u1. -/
theorem dedup_full_row_not_pk_witness :
    projUser ⟨some "u1", some "F", none, none, some "free", 1,
        some "NextSong", none, none, none, none, none⟩ ∈
      users_table
        [⟨some "u1", some "F", none, none, some "free", 1,
          some "NextSong", none, none, none, none, none⟩,
         ⟨some "u1", some "F", none, none, some "paid", 1,
          some "NextSong", none, none, none, none, none⟩] ∧
    projUser ⟨some "u1", some "F", none, none, some "paid", 1,
        some "NextSong", none, none, none, none, none⟩ ∈
      users_table
        [⟨some "u1", some "F", none, none, some "free", 1,
          some "NextSong", none, none, none, none, none⟩,
         ⟨some "u1", some "F", none, none, some "paid", 1,
          some "NextSong", none, none, none, none, none⟩] := by
  have h := (dedup_full_row_not_pk []
      [⟨some "u1", some "F", none, none, some "free", 1,
        some "NextSong", none, none, none, none, none⟩,
       ⟨some "u1", some "F", none, none, some "paid", 1,
        some "NextSong", none, none, none, none, none⟩]
      ⟨none, none, none, none, none, none, none, none, none⟩
      ⟨none, none, none, none, none, none, none, none, none⟩
      ⟨some "u1", some "F", none, none, some "free", 1,
        some "NextSong", none, none, none, none, none⟩
      ⟨some "u1", some "F", none, none, some "paid", 1,
        some "NextSong", none, none, none, none, none⟩).2.2
    (by decide) (by decide) rfl (by decide)
  exact ⟨h.1, h.2.1⟩

/-- Claim C10: the userId/firstName null filter belongs only to the User
builder: a NextSong event with a null userId or firstName is excluded
from the User dimension, yet its timestamp is in the Time dimension and
it still yields a Songplay row whose user_id is the event userId (null
when the userId is null). -/
theorem null_user_event_still_flows (events : List RawEvent) (songs : List SongRow)
    (e : RawEvent) (he : e ∈ events) (hp : e.page = some "NextSong")
    (hn : e.userId = none ∨ e.firstName = none) :
    projUser e ∉ users_table events ∧
    e.ts ∈ (time_table events).map (fun r => r.start_time) ∧
    ∃ r ∈ songplays_table events songs,
      r.user_id = e.userId ∧ r.session_id = e.sessionId ∧ r.start_time = e.ts ∧
      r.location = e.location ∧ r.user_agent = e.userAgent := by
  refine ⟨?_, ?_, ?_⟩
  · intro hmem
    obtain ⟨e2, he2, hpe⟩ := mem_users_rows.mp hmem
    obtain ⟨-, h1, h2⟩ := mem_usersDropna.mp he2
    have hid : e2.userId = e.userId := congrArg UserRow.userId hpe
    have hfn : e2.firstName = e.firstName := congrArg UserRow.firstName hpe
    rcases hn with h | h
    · rw [hid, h] at h1
      simp at h1
    · rw [hfn, h] at h2
      simp at h2
  · have hts : e.ts ∈ (nextSongEvents events).map (fun e => e.ts) :=
      List.mem_map.mpr ⟨e, mem_nextSongEvents.mpr ⟨he, hp⟩, rfl⟩
    unfold time_table
    rw [time_rows_start_times]
    exact List.mem_dedup.mpr hts
  · obtain ⟨q, hq⟩ := exists_mem_joinRows songs e
    have hj := mem_joinedRows_of_mem (mem_nextSongEvents.mpr ⟨he, hp⟩) hq
    obtain ⟨r, hr, h1, h2, h3, h4, h5, h6, h7, h8⟩ := songplays_row_of_mem hj
    have hqe := joinRows_fst songs e q hq
    rw [hqe] at h1 h2 h6 h7 h8
    exact ⟨r, hr, h2, h6, h1, h7, h8⟩

/-- Claim C10, witness: a NextSong event with a null userId is missing
from the User dimension but present in the Time dimension and in the
Songplay fact with a null user_id. -/
theorem null_user_event_still_flows_witness :
    projUser ⟨none, some "F", some "L", some "M", some "free", 1541440000000,
        some "NextSong", some "T", none, some 7, none, none⟩ ∉
      users_table [⟨none, some "F", some "L", some "M", some "free", 1541440000000,
        some "NextSong", some "T", none, some 7, none, none⟩] ∧
    (1541440000000 : Nat) ∈
      (time_table [⟨none, some "F", some "L", some "M", some "free", 1541440000000,
        some "NextSong", some "T", none, some 7, none, none⟩]).map (fun r => r.start_time) ∧
    ∃ r ∈ songplays_table
        [⟨none, some "F", some "L", some "M", some "free", 1541440000000,
          some "NextSong", some "T", none, some 7, none, none⟩] [],
      r.user_id = none ∧ r.session_id = some 7 ∧ r.start_time = 1541440000000 ∧
      r.location = none ∧ r.user_agent = none :=
  null_user_event_still_flows
    [⟨none, some "F", some "L", some "M", some "free", 1541440000000,
      some "NextSong", some "T", none, some 7, none, none⟩] []
    ⟨none, some "F", some "L", some "M", some "free", 1541440000000,
      some "NextSong", some "T", none, some 7, none, none⟩
    (List.mem_cons_self _ _) rfl (Or.inl rfl)
